import Mathlib

/-!
Verification development for a retrieval-augmented generation (RAG) service:
a FAISS-backed retrieval engine (`rag_engine.py`), a controller facade
(`controller.py`) and utility templates (`utils.py`). Embedding vectors are
modelled as rational-valued lists; the external embedding model and the
external generation call are parameters of the operations that use them.
-/

/-- An embedding vector (FAISS stores float32 rows; modelled over ℚ). -/
abbrev Vec := List ℚ

/-- Metadata stored per chunk: `{'id': doc_id, 'filename': filename}`
(`rag_engine.py` lines 30-33). -/
structure ChunkMeta where
  id : String
  filename : String
deriving DecidableEq, Repr

/-- In-memory engine state: the FAISS index rows (`self.index`), the chunk
texts (`self.chunks`) and the per-chunk metadata (`self.metadata`), as set up
in `RAGEngine.__init__`. `index.length` plays the role of `index.ntotal`. -/
structure EngineState where
  index : List Vec
  chunks : List String
  metadata : List ChunkMeta
deriving DecidableEq, Repr

/-- The freshly initialised engine: empty index, no chunks, no metadata
(`rag_engine.py` lines 15-17). -/
def initState : EngineState := { index := [], chunks := [], metadata := [] }

/-- `RAGEngine.add_document` (`rag_engine.py` lines 20-35): embed the content,
append the row to the FAISS index, then append the chunk and its metadata. -/
def addDocument (embed : String → Vec) (st : EngineState)
    (docId content filename : String) : EngineState :=
  { index := st.index ++ [embed content],
    chunks := st.chunks ++ [content],
    metadata := st.metadata ++ [{ id := docId, filename := filename }] }

/-- `RAGEngine.clear` (`rag_engine.py` lines 149-154): fresh empty index,
empty chunk and metadata lists. -/
def clearEngine (_st : EngineState) : EngineState := initState

/-- Squared Euclidean (L2) distance, the metric of `faiss.IndexFlatL2`. -/
def sqDist (u v : Vec) : ℚ := ((u.zip v).map (fun p => (p.1 - p.2) ^ 2)).sum

/-- Distance-to-similarity mapping used in `RAGEngine.search`
(`rag_engine.py` line 53): `similarity = 1 / (1 + distance)`. -/
def score (d : ℚ) : ℚ := 1 / (1 + d)

/-- One element of the list returned by `RAGEngine.search`
(`rag_engine.py` lines 54-59). -/
structure SearchResult where
  id : String
  filename : String
  content : String
  score : ℚ
deriving DecidableEq, Repr

/-- Every index position paired with its L2 distance to the query vector,
in insertion order — what `faiss.IndexFlatL2` computes during
`index.search` (`rag_engine.py` line 47). -/
def distancePairs (q : Vec) (st : EngineState) : List (Nat × ℚ) :=
  (List.range st.index.length).map (fun i => (i, sqDist q (st.index.getD i [])))

/-- `distancePairs` sorted by ascending distance; the sort is stable, so
ties keep insertion order, matching `IndexFlatL2`'s in-order scan. -/
def rankedPairs (q : Vec) (st : EngineState) : List (Nat × ℚ) :=
  List.insertionSort (fun a b => a.2 ≤ b.2) (distancePairs q st)

/-- The loop body of `RAGEngine.search` (`rag_engine.py` lines 50-59): guard
`idx < len(self.chunks)`, then join the position back to its metadata and
chunk and convert the distance with `score`. -/
def resultAt (st : EngineState) (p : Nat × ℚ) : Option SearchResult :=
  if p.1 < st.chunks.length then
    some { id := (st.metadata.getD p.1 { id := "", filename := "" }).id,
           filename := (st.metadata.getD p.1 { id := "", filename := "" }).filename,
           content := st.chunks.getD p.1 "",
           score := score p.2 }
  else none

/-- `RAGEngine.search` (`rag_engine.py` lines 37-61): return `[]` on an empty
store; otherwise embed the query, take the `min top_k (chunks.length)`
nearest index rows by ascending L2 distance, and join each back to its chunk
and metadata. -/
def search (embed : String → Vec) (st : EngineState) (query : String)
    (top_k : Nat) : List SearchResult :=
  if st.chunks.isEmpty then []
  else ((rankedPairs (embed query) st).take (min top_k st.chunks.length)).filterMap
    (resultAt st)

/-- The answer payload built by `RAGEngine.generate_answer`: the empty-result
branch (`rag_engine.py` lines 68-72) carries no `num_sources` key, hence
`numSources : Option Nat`. -/
structure AnswerPayload where
  answer : String
  sources : List String
  numSources : Option Nat
deriving DecidableEq, Repr

/-- The fixed payload returned when retrieval finds nothing
(`rag_engine.py` lines 68-72). -/
def sentinelAnswer : AnswerPayload :=
  { answer := "No relevant information found in the documents.",
    sources := [], numSources := none }

/-- The prompt built by `RAGEngine.generate_answer` (`rag_engine.py`
lines 78-85) from the joined context and the query. -/
def ragPrompt (context query : String) : String :=
  "Based on the following context, answer the question.\n\nContext:\n" ++
    context ++ "\n\nQuestion: " ++ query ++ "\n\nAnswer:"

/-- The synthesis half of `RAGEngine.generate_answer` (`rag_engine.py`
lines 68-101), applied to already-retrieved results. `gen` stands for the
external `ollama.generate` call: `Except.error` is a raised exception, which
the source catches and turns into an error-text answer (lines 88-95). The
returned `Bool` records whether `gen` was invoked. -/
def generateAnswerCore (gen : String → Except String String) (query : String)
    (results : List SearchResult) : AnswerPayload × Bool :=
  if results.isEmpty then (sentinelAnswer, false)
  else
    let context := String.intercalate "\n\n" (results.map (fun r => r.content))
    let answer :=
      match gen (ragPrompt context query) with
      | Except.ok r => r
      | Except.error e => "Error generating answer: " ++ e
    ({ answer := answer,
       sources := results.map (fun r => r.content.take 200 ++ "..."),
       numSources := some results.length }, true)

/-- `RAGEngine.generate_answer` (`rag_engine.py` lines 63-101): search, then
synthesize. -/
def generateAnswer (embed : String → Vec) (gen : String → Except String String)
    (st : EngineState) (query : String) (top_k : Nat) : AnswerPayload × Bool :=
  generateAnswerCore gen query (search embed st query top_k)

namespace TemplateManager

/-- `TemplateManager.DEFAULT` (`utils.py` lines 9-16). -/
def DEFAULT : String :=
  "Based on the following context, answer the question.\n\nContext:\n{context}\n\nQuestion: {query}\n\nAnswer:"

/-- `TemplateManager.DETAILED` (`utils.py` lines 18-25). -/
def DETAILED : String :=
  "You are a helpful assistant. Use the following context to answer the question in detail.\n\nContext:\n{context}\n\nQuestion: {query}\n\nProvide a comprehensive answer:"

/-- `TemplateManager.CONCISE` (`utils.py` lines 27-34). -/
def CONCISE : String :=
  "Answer briefly using only the context provided.\n\nContext:\n{context}\n\nQuestion: {query}\n\nBrief Answer:"

/-- `TemplateManager.get` (`utils.py` lines 36-44): dictionary lookup with
`DEFAULT` as the fallback for unknown keys. -/
def get (template_type : String) : String :=
  if template_type = "default" then DEFAULT
  else if template_type = "detailed" then DETAILED
  else if template_type = "concise" then CONCISE
  else DEFAULT

end TemplateManager

/-- The two persisted artifacts written under one base path by
`RAGEngine.save_state` (`rag_engine.py` lines 114-129): the serialized FAISS
index (`rag_state.faiss`) and the pickled chunks+metadata (`rag_state.pkl`).
`none` means the file is absent on disk. -/
structure Disk where
  faissFile : Option (List Vec)
  pklFile : Option (List String × List ChunkMeta)
deriving DecidableEq, Repr

/-- A disk with neither artifact present (the first-run case). -/
def emptyDisk : Disk := { faissFile := none, pklFile := none }

/-- `RAGEngine.save_state` (`rag_engine.py` lines 114-129): overwrite both
artifacts with the current in-memory state. -/
def saveState (st : EngineState) (_disk : Disk) : Disk :=
  { faissFile := some st.index, pklFile := some (st.chunks, st.metadata) }

/-- `RAGEngine.load_state` (`rag_engine.py` lines 131-147): if both files
exist, load both into memory and return `true`; otherwise return `false`
leaving the state unchanged. The source performs no consistency check
between the two artifacts. -/
def loadState (st : EngineState) (disk : Disk) : EngineState × Bool :=
  match disk.faissFile, disk.pklFile with
  | some idx, some s => ({ index := idx, chunks := s.1, metadata := s.2 }, true)
  | _, _ => (st, false)

/-- The persisted artifacts mirror the in-memory state exactly (what
`save_state` establishes). -/
def diskMatches (st : EngineState) (disk : Disk) : Prop :=
  disk.faissFile = some st.index ∧ disk.pklFile = some (st.chunks, st.metadata)

instance (st : EngineState) (disk : Disk) : Decidable (diskMatches st disk) := by
  unfold diskMatches; infer_instance

/-- `RAGController.get_document_list` (`controller.py` lines 61-65): the
distinct metadata filenames (Python builds `list(set(...))`; only membership
is relied upon downstream, and `dedup` keeps it computable). -/
def documentList (st : EngineState) : List String :=
  (st.metadata.map ChunkMeta.filename).dedup

/-- Outcome of `RAGController.delete_document` (`controller.py`
lines 105-140). `controller.py` imports neither `faiss` nor `numpy`, so the
rebuild at line 124 (`faiss.IndexFlatL2`) raises `NameError` on every call
that reaches it; the function can never return normally. -/
inductive DeleteOutcome where
  /-- `ValueError: Document not found` (line 108). -/
  | notFound (filename : String)
  /-- `NameError: name 'faiss' is not defined`, raised at line 124 after
  `chunks`/`metadata` were already reassigned at lines 122-123. -/
  | nameErrorUnresolvedGlobal
deriving DecidableEq, Repr

/-- `RAGController.delete_document` (`controller.py` lines 105-140): validate
the filename, filter `zip(metadata, chunks)` down to the survivors, assign
the filtered lists to `self.rag.chunks` / `self.rag.metadata` (lines
122-123), then hit the `NameError` at line 124 (missing `import faiss`),
leaving the index untouched and the rebuild and `save_state` unreached. -/
def deleteDocument (st : EngineState) (filename : String) :
    EngineState × DeleteOutcome :=
  if filename ∈ documentList st then
    let kept := (st.metadata.zip st.chunks).filter
      (fun mc => decide (mc.1.filename ≠ filename))
    ({ st with chunks := kept.map Prod.snd, metadata := kept.map Prod.fst },
      DeleteOutcome.nameErrorUnresolvedGlobal)
  else (st, DeleteOutcome.notFound filename)

/-- Python's `str.endswith(suffix)`, as a suffix test on the character
list. -/
def strEndsWith (s suffix : String) : Bool := suffix.data.isSuffixOf s.data

/-- `RAGController.upload_pdf` (`controller.py` lines 13-35): reject
non-`.pdf` filenames, add every extracted chunk (PDF text extraction and
chunking happen in the external `process_pdf_file` collaborator; here the
`(doc_id, chunk)` pairs arrive pre-extracted), then `save_state`. Returns
`true` on success, `false` for the `ValueError` on a bad extension. -/
def uploadPdf (embed : String → Vec) (st : EngineState) (disk : Disk)
    (filename : String) (docChunks : List (String × String)) :
    (EngineState × Disk) × Bool :=
  if strEndsWith filename ".pdf" then
    let st' := docChunks.foldl
      (fun s c => addDocument embed s c.1 c.2 filename) st
    ((st', saveState st' disk), true)
  else ((st, disk), false)

/-- `RAGController.clear_all` (`controller.py` lines 142-145): clear the
engine and return the message. No `save_state` call occurs, so the disk is
returned unchanged. -/
def clearAll (st : EngineState) (disk : Disk) :
    (EngineState × Disk) × String :=
  ((clearEngine st, disk), "All data cleared")

/-- Number of positional parameters `RAGEngine.generate_answer` can accept
besides `self`: `query` and `top_k` (`rag_engine.py` line 63). -/
def generateAnswerPositionalParams : Nat := 2

/-- Number of positional arguments `RAGController.query_documents` passes to
`generate_answer` besides `self`: `query, top_k, template_type,
filter_filenames` (`controller.py` line 50). -/
def queryDocumentsCallArgs : Nat := 4

/-- Outcome of `RAGController.query_documents` (`controller.py`
lines 37-51). -/
inductive QueryOutcome where
  /-- A returned answer payload (unreachable in the source, see
  `typeErrorArity`). -/
  | answer (payload : AnswerPayload)
  /-- `ValueError: No documents uploaded yet` (lines 40-41). -/
  | noDocuments
  /-- `ValueError: Documents not found: ...` (lines 44-48). -/
  | documentsNotFound (missing : List String)
  /-- `TypeError`: line 50 passes `queryDocumentsCallArgs` (4) positional
  arguments to `generate_answer`, which accepts at most
  `generateAnswerPositionalParams` (2); CPython raises before the callee
  body runs. -/
  | typeErrorArity
deriving DecidableEq, Repr

/-- `RAGController.query_documents` (`controller.py` lines 37-51): raise on
an empty store, validate `filter_filenames` (Python truthiness: `None` and
`[]` both skip validation), then delegate to `generate_answer` — a call that
always raises `TypeError` because it passes four positional arguments to a
method accepting two. -/
def queryDocuments (st : EngineState) (_query : String) (_top_k : Nat)
    (_template_type : String) (filter_filenames : Option (List String)) :
    QueryOutcome :=
  if st.chunks.length = 0 then QueryOutcome.noDocuments
  else if filter_filenames.getD [] ≠ [] then
    let invalid := (filter_filenames.getD []).filter
      (fun f => decide (f ∉ documentList st))
    if invalid ≠ [] then QueryOutcome.documentsNotFound invalid
    else QueryOutcome.typeErrorArity
  else QueryOutcome.typeErrorArity

/-- A concrete stand-in for the external embedding model: every text maps to
the vector `[0]`. -/
def embed0 : String → Vec := fun _ => [0]

/-- A concrete stand-in for the external generation call that succeeds. -/
def gen0 : String → Except String String := fun _ => Except.ok "the answer"

/-- Engine state after adding one chunk of `a.pdf`. -/
def stA : EngineState := addDocument embed0 initState "id1" "hello" "a.pdf"

/-- Engine state after adding one chunk each of `a.pdf` and `b.pdf`. -/
def stAB : EngineState := addDocument embed0 stA "id2" "world" "b.pdf"

/-- State left behind by the `NameError`-aborted `delete_document("a.pdf")`
call on `stA`. -/
def stAfterFailedDelete : EngineState := (deleteDocument stA "a.pdf").1

/-- State after a further `add_document` on top of the aborted delete. -/
def stBroken : EngineState :=
  addDocument embed0 stAfterFailedDelete "id2" "world" "b.pdf"

/-- A single retrieval result whose content (`"abc"`) is well under the
200-character preview length. -/
def resultsShort : List SearchResult :=
  [{ id := "id1", filename := "a.pdf", content := "abc", score := 1 }]

/-- The disk produced by saving `stA` on a fresh disk. -/
def diskA : Disk := saveState stA emptyDisk

/-- A corrupt pair of artifacts: the index file holds two rows but the
pickle holds one chunk and one metadata entry. -/
def corruptDisk : Disk :=
  { faissFile := some [[0], [1]],
    pklFile := some (["c1"], [{ id := "id1", filename := "a.pdf" }]) }

/-- A one-entry engine state used to exercise `search` concretely. -/
def stSearchW : EngineState :=
  { index := [[0]], chunks := ["c"],
    metadata := [{ id := "i", filename := "f.pdf" }] }

/-- The result `search` produces on `stSearchW` for the constant embedding:
distance `sqDist [0] [0] = 0`, hence score `1`. -/
def resultW : SearchResult :=
  { id := "i", filename := "f.pdf", content := "c",
    score := score (sqDist [0] [0]) }

theorem generate_answer_call_overflows :
    generateAnswerPositionalParams < queryDocumentsCallArgs := by decide

theorem sqDist_nonneg (u v : Vec) : 0 ≤ sqDist u v := by
  unfold sqDist
  apply List.sum_nonneg
  intro x hx
  rcases List.mem_map.mp hx with ⟨p, _, rfl⟩
  positivity

theorem score_pos {d : ℚ} (h : 0 ≤ d) : 0 < score d := by
  unfold score
  exact div_pos one_pos (by linarith)

theorem score_le_one {d : ℚ} (h : 0 ≤ d) : score d ≤ 1 := by
  unfold score
  rw [div_le_one (by linarith)]
  linarith

theorem score_strict_anti {d₁ d₂ : ℚ} (h0 : 0 ≤ d₁) (h : d₁ < d₂) :
    score d₂ < score d₁ := by
  unfold score
  exact one_div_lt_one_div_of_lt (by linarith) (by linarith)

/-- C7: For every query and result set, synthesizing with an unknown template
kind (any string outside `{default, detailed, concise}`) selects exactly the
same template as template kind `"default"`: `TemplateManager.get` falls back
to `DEFAULT` for unknown keys. -/
theorem unknown_template_falls_back_to_default (t : String)
    (h1 : t ≠ "default") (h2 : t ≠ "detailed") (h3 : t ≠ "concise") :
    TemplateManager.get t = TemplateManager.get "default" ∧
    ∀ st query top_k ff,
      queryDocuments st query top_k t ff =
        queryDocuments st query top_k "default" ff := by
  refine ⟨?_, fun st query top_k ff => rfl⟩
  unfold TemplateManager.get
  rw [if_neg h1, if_neg h2, if_neg h3, if_pos rfl]

/-- Witness for C7 at the concrete unknown kind `"bogus"`. -/
theorem unknown_template_falls_back_to_default_witness :
    (("bogus" : String) ≠ "default" ∧ ("bogus" : String) ≠ "detailed" ∧
      ("bogus" : String) ≠ "concise") ∧
    (TemplateManager.get "bogus" = TemplateManager.get "default" ∧
      ∀ st query top_k ff,
        queryDocuments st query top_k "bogus" ff =
          queryDocuments st query top_k "default" ff) :=
  ⟨by decide, unknown_template_falls_back_to_default "bogus"
    (by decide) (by decide) (by decide)⟩

/-- C8: Whenever `generate_answer` receives an empty result set from
retrieval, it returns the fixed sentinel payload ("No relevant information
found in the documents.", no sources) and the external generation function
is not invoked (the `Bool` component is `false`). -/
theorem empty_retrieval_returns_sentinel (embed : String → Vec)
    (gen : String → Except String String) (st : EngineState) (query : String)
    (top_k : Nat) (h : search embed st query top_k = []) :
    generateAnswer embed gen st query top_k = (sentinelAnswer, false) := by
  unfold generateAnswer
  rw [h]
  rfl

/-- Witness for C8 on the freshly initialised (empty) engine. -/
theorem empty_retrieval_returns_sentinel_witness :
    search embed0 initState "q" 3 = [] ∧
    generateAnswer embed0 gen0 initState "q" 3 = (sentinelAnswer, false) :=
  ⟨rfl, empty_retrieval_returns_sentinel embed0 gen0 initState "q" 3 rfl⟩

/-- C10: `RAGController.query_documents` raises `ValueError("No documents
uploaded yet")` whenever the fragment store is empty, before embedding or
searching, even though the engine-level `search` on an empty store returns
an empty list rather than an error. -/
theorem query_empty_store_raises_before_search (st : EngineState)
    (query : String) (top_k : Nat) (tt : String) (ff : Option (List String))
    (embed : String → Vec) (h : st.chunks = []) :
    queryDocuments st query top_k tt ff = QueryOutcome.noDocuments ∧
    search embed st query top_k = [] := by
  constructor
  · unfold queryDocuments
    rw [h]
    rfl
  · unfold search
    rw [h]
    rfl

/-- Witness for C10 on the freshly initialised (empty) engine. -/
theorem query_empty_store_raises_before_search_witness :
    initState.chunks = [] ∧
    (queryDocuments initState "q" 3 "default" none = QueryOutcome.noDocuments ∧
      search embed0 initState "q" 3 = []) :=
  ⟨rfl, query_empty_store_raises_before_search initState "q" 3 "default" none
    embed0 rfl⟩

set_option maxRecDepth 10000 in
/-- C6 counterexample: for a result whose content `"abc"` is not truncated
(3 ≤ 200 characters), the source still appends the ellipsis marker, so
`sources` is `["abc..."]` and not the claimed `["abc"]`. -/
theorem sources_ellipsis_unconditional_counterexample :
    (generateAnswerCore gen0 "q" resultsShort).1.sources = ["abc..."] ∧
    (generateAnswerCore gen0 "q" resultsShort).1.sources ≠ ["abc"] ∧
    resultsShort.map (fun r => r.content.length) = [3] := by
  refine ⟨?_, ?_, ?_⟩ <;> decide

/-- C6 (amended): for every non-empty result list, `sources` is the list of
result contents truncated to the 200-character preview with the ellipsis
marker appended unconditionally (even when the content was not truncated),
and `num_sources` equals the length of the result list. -/
theorem sources_preview_and_count (gen : String → Except String String)
    (query : String) (results : List SearchResult) (h : results ≠ []) :
    (generateAnswerCore gen query results).1.sources =
      results.map (fun r => r.content.take 200 ++ "...") ∧
    (generateAnswerCore gen query results).1.numSources =
      some results.length := by
  unfold generateAnswerCore
  rw [if_neg (by simp [List.isEmpty_iff, h])]
  exact ⟨rfl, rfl⟩

/-- Witness for the amended C6 at the concrete one-element result list. -/
theorem sources_preview_and_count_witness :
    resultsShort ≠ [] ∧
    ((generateAnswerCore gen0 "q" resultsShort).1.sources =
        resultsShort.map (fun r => r.content.take 200 ++ "...") ∧
      (generateAnswerCore gen0 "q" resultsShort).1.numSources =
        some resultsShort.length) :=
  ⟨by decide, sources_preview_and_count gen0 "q" resultsShort (by decide)⟩

/-- C5 counterexample: with both artifacts present but holding two index
rows against one chunk, `load_state` succeeds (returns `True`) and installs
the misaligned store instead of reporting corruption. -/
theorem load_no_corruption_check_counterexample :
    (loadState initState corruptDisk).2 = true ∧
    (loadState initState corruptDisk).1.index.length = 2 ∧
    (loadState initState corruptDisk).1.chunks.length = 1 := by
  refine ⟨?_, ?_, ?_⟩ <;> decide

/-- C5 (amended): when either artifact is absent, `load_state` returns
`False` and leaves the state unchanged; when both are present it loads them
unconditionally — with no count-consistency check — and returns `True`,
whatever the entry counts are. -/
theorem load_state_behavior (st : EngineState) (disk : Disk) :
    (disk.faissFile = none ∨ disk.pklFile = none →
      loadState st disk = (st, false)) ∧
    (∀ idx s, disk.faissFile = some idx → disk.pklFile = some s →
      loadState st disk =
        ({ index := idx, chunks := s.1, metadata := s.2 }, true)) := by
  obtain ⟨f, p⟩ := disk
  cases f <;> cases p <;> simp [loadState]

/-- Witness for the amended C5 on the first-run (empty) disk. -/
theorem load_state_behavior_witness :
    (emptyDisk.faissFile = none ∨ emptyDisk.pklFile = none) ∧
    loadState initState emptyDisk = (initState, false) :=
  ⟨Or.inl rfl, (load_state_behavior initState emptyDisk).1 (Or.inl rfl)⟩

/-- C4 counterexample: `clear_all` on a saved one-document state returns
with the disk unchanged, so the persisted artifacts still hold the
pre-clear chunk while the in-memory state is empty — on-disk state does not
equal in-memory state when the operation returns. -/
theorem clear_all_does_not_save_counterexample :
    (clearAll stA diskA).1.2 = diskA ∧
    ¬ diskMatches (clearAll stA diskA).1.1 (clearAll stA diskA).1.2 := by
  refine ⟨rfl, ?_⟩
  decide

/-- C4 (amended): after a successful PDF ingestion the facade has saved, so
the persisted artifacts equal the in-memory state; but `clear_all` performs
no save and returns the disk unchanged (and `delete_document` aborts with
`NameError` before reaching its save call), so on-disk state can lag
in-memory state after a clear. -/
theorem mutating_facade_save_behavior (embed : String → Vec)
    (st : EngineState) (disk : Disk) (filename : String)
    (docChunks : List (String × String)) (st' : EngineState) (disk' : Disk)
    (h : uploadPdf embed st disk filename docChunks = ((st', disk'), true)) :
    diskMatches st' disk' ∧ ∀ s d, (clearAll s d).1.2 = d := by
  refine ⟨?_, fun s d => rfl⟩
  unfold uploadPdf at h
  split at h
  · injection h with h1 h2
    injection h1 with hst hdisk
    subst hst
    subst hdisk
    exact ⟨rfl, rfl⟩
  · injection h with h1 h2
    cases h2

/-- Witness for the amended C4 at a concrete one-chunk upload. -/
theorem mutating_facade_save_behavior_witness :
    uploadPdf embed0 initState emptyDisk "a.pdf" [("id1", "hello")] =
      ((stA, diskA), true) ∧
    (diskMatches stA diskA ∧ ∀ s d, (clearAll s d).1.2 = d) :=
  ⟨by decide, mutating_facade_save_behavior embed0 initState emptyDisk "a.pdf"
    [("id1", "hello")] stA diskA (by decide)⟩

/-- C1: the index/store alignment is violated by a returning call. Running
`add_document` (a.pdf), then `delete_document("a.pdf")` — which aborts with
`NameError` after reassigning `chunks`/`metadata` but before touching the
index — then `add_document` (b.pdf), the final `add_document` returns with
`index.ntotal = 2` while `len(chunks) = len(metadata) = 1`. -/
theorem invariant_broken_after_failed_delete :
    (deleteDocument stA "a.pdf").2 = DeleteOutcome.nameErrorUnresolvedGlobal ∧
    stBroken.index.length = 2 ∧
    stBroken.chunks.length = 1 ∧
    stBroken.metadata.length = 1 ∧
    stBroken.index.length ≠ stBroken.chunks.length := by
  refine ⟨?_, ?_, ?_, ?_, ?_⟩ <;> decide

/-- C2: `delete_document("a.pdf")` on a one-document store fails (the
`NameError` from the missing `faiss` import) yet does not leave the pre-call
state: `chunks` and `metadata` are already emptied while the index still
holds the old row — a partially applied mutation is observable after the
failure. -/
theorem delete_document_leaves_partial_state :
    (deleteDocument stA "a.pdf").2 = DeleteOutcome.nameErrorUnresolvedGlobal ∧
    (deleteDocument stA "a.pdf").1 ≠ stA ∧
    (deleteDocument stA "a.pdf").1.chunks = [] ∧
    (deleteDocument stA "a.pdf").1.metadata = [] ∧
    (deleteDocument stA "a.pdf").1.index = stA.index := by
  refine ⟨?_, ?_, ?_, ?_, ?_⟩ <;> decide

/-- C3: with documents `a.pdf` and `b.pdf` loaded and the valid allow-list
`["b.pdf"]`, `query_documents` does not return filtered fragments: after the
validations pass it delegates with four positional arguments to
`generate_answer`, which accepts only two, so the call raises `TypeError`
(no filter parameter exists anywhere in the engine). -/
theorem filtered_query_raises_arity_error :
    "b.pdf" ∈ documentList stAB ∧
    queryDocuments stAB "q" 5 "default" (some ["b.pdf"]) =
      QueryOutcome.typeErrorArity ∧
    generateAnswerPositionalParams < queryDocumentsCallArgs := by
  refine ⟨?_, ?_, ?_⟩ <;> decide

/-- C9: every result returned by `search` has `score = 1 / (1 + d)` where
`d` is the squared Euclidean distance from the query vector to some stored
vector; since that distance is non-negative, every score lies in `(0, 1]`,
and the distance-to-score mapping is strictly decreasing. -/
theorem search_score_formula_and_bounds (embed : String → Vec)
    (st : EngineState) (query : String) (top_k : Nat) :
    (∀ r ∈ search embed st query top_k,
      (∃ i, i < st.index.length ∧
        0 ≤ sqDist (embed query) (st.index.getD i []) ∧
        r.score = score (sqDist (embed query) (st.index.getD i []))) ∧
      0 < r.score ∧ r.score ≤ 1) ∧
    (∀ d₁ d₂ : ℚ, 0 ≤ d₁ → d₁ < d₂ → score d₂ < score d₁) := by
  constructor
  · intro r hr
    unfold search at hr
    by_cases hc : st.chunks.isEmpty
    · rw [if_pos hc] at hr
      cases hr
    · rw [if_neg hc] at hr
      obtain ⟨p, hp, hfp⟩ := List.mem_filterMap.mp hr
      have hp1 : p ∈ rankedPairs (embed query) st := List.mem_of_mem_take hp
      have hp2 : p ∈ distancePairs (embed query) st := by
        unfold rankedPairs at hp1
        exact (List.mem_insertionSort _).mp hp1
      obtain ⟨i, hi, hpi⟩ := List.mem_map.mp hp2
      subst hpi
      have hi' : i < st.index.length := List.mem_range.mp hi
      unfold resultAt at hfp
      split at hfp
      · injection hfp with hfp
        subst hfp
        exact ⟨⟨i, hi', sqDist_nonneg _ _, rfl⟩, score_pos (sqDist_nonneg _ _),
          score_le_one (sqDist_nonneg _ _)⟩
      · cases hfp
  · intro d₁ d₂ h0 hlt
    exact score_strict_anti h0 hlt

/-- Witness for C9 on a concrete one-entry store. -/
theorem search_score_formula_and_bounds_witness :
    resultW ∈ search embed0 stSearchW "q" 1 ∧
    ((∃ i, i < stSearchW.index.length ∧
        0 ≤ sqDist (embed0 "q") (stSearchW.index.getD i []) ∧
        resultW.score = score (sqDist (embed0 "q") (stSearchW.index.getD i []))) ∧
      0 < resultW.score ∧ resultW.score ≤ 1) :=
  ⟨List.mem_singleton.mpr rfl,
    (search_score_formula_and_bounds embed0 stSearchW "q" 1).1
      resultW (List.mem_singleton.mpr rfl)⟩
